import Mathlib

/-!
Verification of the mechanical-joint torsor derivation
(`Mechanical_joints.py`, class `Joint`).

The embedding mirrors the Python source:
- `JOINT_TYPES` is the class-level catalog dictionary, embedded as an
  association list (dict keys are unique and insertion-ordered).
- `pyLower` models `str.lower()` (the catalog keys and inputs are ASCII).
- A `JointState` carries the four instance attributes set by `__init__`:
  `joint_type` (lowercased), `axis` (stored as given), and the two torsor
  slots `K` and `T`, which start as `None`.
- `updateTorsors` models `_update_torsors`; a raised `ValueError` is an
  `Except.error` carrying both the error kind and the instance state as it
  stands at the raise site (the Python method mutates `self.K`/`self.T`
  only after all raise sites, so the carried state records what an observer
  of the half-built object would see).
- `Joint.init` models `Joint.__init__`: build the initial state, run
  `_update_torsors`, propagate any exception.

Torsor entries are `Option Nat`: the source uses a `dtype=object` array
whose entries are ints or `None` (the static derivation has an explicit
`None` branch).
-/

namespace MechanicalJoints

/-- One catalog entry of `Joint.JOINT_TYPES`. -/
structure JointTypeInfo where
  french : String
  axis_required : Bool
  description : String
deriving DecidableEq

/-- The class-level catalog `Joint.JOINT_TYPES`. -/
def JOINT_TYPES : List (String × JointTypeInfo) :=
  [("revolute", ⟨"Pivot", true, "Rotation around a fixed axis"⟩),
   ("prismatic", ⟨"Glissière", true, "Translation along a fixed axis"⟩),
   ("fixed", ⟨"Encastrement", false, "No relative motion"⟩),
   ("fixed_point", ⟨"Appui ponctuel", false, "Point contact without motion"⟩)]

/-- The local dictionary `axis_index = {"x": 0, "y": 1, "z": 2}`. -/
def axis_index : List (String × Nat) :=
  [("x", 0), ("y", 1), ("z", 2)]

/-- Python `str.lower()` on the ASCII strings used here: lowercase every
character. -/
def pyLower (s : String) : String :=
  ⟨s.data.map Char.toLower⟩

/-- The three `ValueError` raise sites of `_update_torsors`. -/
inductive JointError where
  | unknownJointType : String → JointError
  | missingAxis : String → JointError
  | invalidAxis : JointError
deriving DecidableEq

/-- The instance attributes of a `Joint` object. -/
structure JointState where
  joint_type : String
  axis : Option String
  K : Option (List (Option Nat))
  T : Option (List (Option Nat))
deriving DecidableEq

/-- The state built by the first four lines of `__init__`:
`self.joint_type = joint_type.lower()`, `self.axis = axis`,
`self.K = None`, `self.T = None`. -/
def initState (joint_type : String) (axis : Option String) : JointState :=
  ⟨pyLower joint_type, axis, none, none⟩

/-- `K = np.array([0, 0, 0, 0, 0, 0], dtype=object)`. -/
def K0 : List (Option Nat) :=
  [some 0, some 0, some 0, some 0, some 0, some 0]

/-- One entry of the static-torsor comprehension:
`None if v is None else (1 if v == 0 else 0)`. -/
def complEntry : Option Nat → Option Nat
  | none => none
  | some v => some (if v = 0 then 1 else 0)

/-- The tail of `_update_torsors`: `self.K = K` followed by
`self.T = np.array([... for v in self.K], dtype=object)`. -/
def setTorsors (s : JointState) (K : List (Option Nat)) : JointState :=
  { s with K := some K, T := some (K.map complEntry) }

/-- `_update_torsors`.  On error the carried `JointState` is the object
state at the raise site. -/
def updateTorsors (s : JointState) : Except (JointError × JointState) JointState :=
  match JOINT_TYPES.lookup s.joint_type with
  | none => .error (.unknownJointType s.joint_type, s)
  | some joint_info =>
    if joint_info.axis_required then
      match s.axis with
      | none => .error (.missingAxis s.joint_type, s)
      | some a =>
        match axis_index.lookup a with
        | none => .error (.invalidAxis, s)
        | some idx =>
          if s.joint_type = "revolute" then
            .ok (setTorsors s (K0.set idx (some 1)))
          else if s.joint_type = "prismatic" then
            .ok (setTorsors s (K0.set (idx + 3) (some 1)))
          else
            .ok (setTorsors s K0)
    else
      .ok (setTorsors s K0)

/-- Forget the raise-site state, keeping only the propagated error. -/
def dropState : Except (JointError × JointState) JointState → Except JointError JointState
  | .error (e, _) => .error e
  | .ok s => .ok s

/-- `Joint.__init__(joint_type, axis)`: on success the fully built object,
on failure the propagated `ValueError`. -/
def Joint.init (joint_type : String) (axis : Option String) :
    Except JointError JointState :=
  dropState (updateTorsors (initState joint_type axis))

/-- The one-hot kinematic vector with its single `1` at index `i`. -/
def unitVec (i : Nat) : List (Option Nat) :=
  (List.range 6).map (fun j => some (if j = i then 1 else 0))

/-- Entrywise logical complement of a torsor. -/
def complVec (K : List (Option Nat)) : List (Option Nat) :=
  K.map complEntry

/-- The kinematic vectors reachable from `_update_torsors`. -/
def possibleKs : List (List (Option Nat)) :=
  K0 :: (List.range 6).map (fun i => K0.set i (some 1))

/-- Result of a construction seen only through the two torsors. -/
def resultTorsors :
    Except (JointError × JointState) JointState →
      Except JointError (Option (List (Option Nat)) × Option (List (Option Nat)))
  | .error (e, _) => .error e
  | .ok s => .ok (s.K, s.T)

/-- Looking up an axis in `axis_index` succeeds exactly on the three
lowercase axis names, with the indices 0, 1, 2. -/
theorem axis_lookup_cases (a : String) (i : Nat)
    (h : axis_index.lookup a = some i) :
    (a = "x" ∧ i = 0) ∨ (a = "y" ∧ i = 1) ∨ (a = "z" ∧ i = 2) := by
  by_cases hx : a = "x"
  · subst hx
    rw [show axis_index.lookup "x" = some 0 from rfl] at h
    injection h with h
    exact Or.inl ⟨rfl, h.symm⟩
  by_cases hy : a = "y"
  · subst hy
    rw [show axis_index.lookup "y" = some 1 from rfl] at h
    injection h with h
    exact Or.inr (Or.inl ⟨rfl, h.symm⟩)
  by_cases hz : a = "z"
  · subst hz
    rw [show axis_index.lookup "z" = some 2 from rfl] at h
    injection h with h
    exact Or.inr (Or.inr ⟨rfl, h.symm⟩)
  · exfalso
    simp only [axis_index, List.lookup] at h
    rw [show (a == "x") = false from beq_eq_false_iff_ne.mpr hx,
        show (a == "y") = false from beq_eq_false_iff_ne.mpr hy,
        show (a == "z") = false from beq_eq_false_iff_ne.mpr hz] at h
    simp at h

/-- A raise in `_update_torsors` propagates the object state unchanged:
the carried state is exactly the state the method was entered with. -/
theorem updateTorsors_error_state (s : JointState) (e : JointError)
    (s1 : JointState) (h : updateTorsors s = .error (e, s1)) : s1 = s := by
  unfold updateTorsors at h
  repeat' split at h
  all_goals simp_all

/-- Every successful run of `_update_torsors` ends in `setTorsors` with a
kinematic vector that is either all-zero or one-hot at an index below 6. -/
theorem updateTorsors_ok_shape (s s1 : JointState)
    (h : updateTorsors s = .ok s1) :
    ∃ K, (K = K0 ∨ ∃ i, i < 6 ∧ K = K0.set i (some 1)) ∧
      s1 = setTorsors s K := by
  unfold updateTorsors at h
  split at h
  · exact absurd h (by simp)
  · split at h
    · split at h
      · exact absurd h (by simp)
      · rename_i a ha
        split at h
        · exact absurd h (by simp)
        · rename_i idx hla
          split at h
          · injection h with h
            rcases axis_lookup_cases a idx hla with ⟨_, rfl⟩ | ⟨_, rfl⟩ | ⟨_, rfl⟩ <;>
              exact ⟨_, Or.inr ⟨_, by omega, rfl⟩, h.symm⟩
          · split at h
            · injection h with h
              rcases axis_lookup_cases a idx hla with ⟨_, rfl⟩ | ⟨_, rfl⟩ | ⟨_, rfl⟩ <;>
                exact ⟨_, Or.inr ⟨_, by omega, rfl⟩, h.symm⟩
            · injection h with h
              exact ⟨K0, Or.inl rfl, h.symm⟩
    · injection h with h
      exact ⟨K0, Or.inl rfl, h.symm⟩

/-- Evaluation of `_update_torsors` at the first raise site: unknown
joint type. -/
theorem updateTorsors_unknown (s : JointState)
    (h : JOINT_TYPES.lookup s.joint_type = none) :
    updateTorsors s = .error (.unknownJointType s.joint_type, s) := by
  simp only [updateTorsors, h]

/-- Evaluation of `_update_torsors` at the second raise site: axis
required but absent. -/
theorem updateTorsors_missing_axis (s : JointState) (info : JointTypeInfo)
    (hinfo : JOINT_TYPES.lookup s.joint_type = some info)
    (hreq : info.axis_required = true) (hax : s.axis = none) :
    updateTorsors s = .error (.missingAxis s.joint_type, s) := by
  simp only [updateTorsors, hinfo, hreq, hax, if_true]

/-- Evaluation of `_update_torsors` at the third raise site: an axis was
given but it is not a key of `axis_index`. -/
theorem updateTorsors_invalid_axis (s : JointState) (info : JointTypeInfo)
    (a : String) (hinfo : JOINT_TYPES.lookup s.joint_type = some info)
    (hreq : info.axis_required = true) (hax : s.axis = some a)
    (hla : axis_index.lookup a = none) :
    updateTorsors s = .error (.invalidAxis, s) := by
  simp only [updateTorsors, hinfo, hreq, hax, hla, if_true]

/-- Evaluation of `_update_torsors` when the type requires no axis: the
axis checks are skipped entirely and the all-zero vector is used. -/
theorem updateTorsors_no_axis (s : JointState) (info : JointTypeInfo)
    (hinfo : JOINT_TYPES.lookup s.joint_type = some info)
    (hreq : info.axis_required = false) :
    updateTorsors s = .ok (setTorsors s K0) := by
  simp only [updateTorsors, hinfo, hreq]
  simp

/-- A successful `__init__` is exactly a successful `_update_torsors` run
on the freshly initialized state. -/
theorem init_ok (jt : String) (ax : Option String) (s : JointState)
    (h : Joint.init jt ax = .ok s) :
    updateTorsors (initState jt ax) = .ok s := by
  unfold Joint.init dropState at h
  split at h
  · exact absurd h (by simp)
  · rename_i s1 heq
    injection h with h
    subst h
    exact heq

end MechanicalJoints

namespace MechanicalJoints

/-- C2: every successful construction of a joint whose type resolves to a
catalog entry requiring no axis (`fixed`, `fixed_point` — whatever axis
argument is passed, including none) yields kinematic torsor
`[0,0,0,0,0,0]` and static torsor `[1,1,1,1,1,1]`. -/
theorem fixed_joints_locked (jt : String) (ax : Option String)
    (info : JointTypeInfo)
    (hinfo : JOINT_TYPES.lookup (pyLower jt) = some info)
    (hreq : info.axis_required = false) :
    Joint.init jt ax =
      .ok ⟨pyLower jt, ax,
        some [some 0, some 0, some 0, some 0, some 0, some 0],
        some [some 1, some 1, some 1, some 1, some 1, some 1]⟩ := by
  unfold Joint.init
  rw [updateTorsors_no_axis (initState jt ax) info hinfo hreq]
  rfl

/-- Witness for C2 at the concrete construction `Joint("fixed")`. -/
theorem fixed_joints_locked_witness :
    Joint.init "fixed" none =
      .ok ⟨"fixed", none,
        some [some 0, some 0, some 0, some 0, some 0, some 0],
        some [some 1, some 1, some 1, some 1, some 1, some 1]⟩ :=
  fixed_joints_locked "fixed" none ⟨"Encastrement", false, "No relative motion"⟩
    rfl rfl

/-- C1: for a revolute joint with axis `a` the kinematic torsor is the
one-hot vector at the rotational index of `a` (0 for x, 1 for y, 2 for z)
and the static torsor is its entrywise complement; for a prismatic joint
the single `1` sits at the translational index (rotational index plus 3);
each one-hot vector has exactly one entry `1`; in particular
revolute/z gives `[0,0,1,0,0,0]` with static `[1,1,0,1,1,1]` and
prismatic/y gives `[0,0,0,0,1,0]` with static `[1,1,1,1,0,1]`. -/
theorem revolute_prismatic_one_dof :
    (∀ a i, axis_index.lookup a = some i →
      Joint.init "revolute" (some a) =
        .ok ⟨"revolute", some a, some (unitVec i), some (complVec (unitVec i))⟩) ∧
    (∀ a i, axis_index.lookup a = some i →
      Joint.init "prismatic" (some a) =
        .ok ⟨"prismatic", some a, some (unitVec (i + 3)),
          some (complVec (unitVec (i + 3)))⟩) ∧
    (∀ i, i < 6 → (unitVec i).count (some 1) = 1) ∧
    Joint.init "revolute" (some "z") =
      .ok ⟨"revolute", some "z",
        some [some 0, some 0, some 1, some 0, some 0, some 0],
        some [some 1, some 1, some 0, some 1, some 1, some 1]⟩ ∧
    Joint.init "prismatic" (some "y") =
      .ok ⟨"prismatic", some "y",
        some [some 0, some 0, some 0, some 0, some 1, some 0],
        some [some 1, some 1, some 1, some 1, some 0, some 1]⟩ := by
  refine ⟨?_, ?_, ?_, rfl, rfl⟩
  · intro a i h
    rcases axis_lookup_cases a i h with ⟨rfl, rfl⟩ | ⟨rfl, rfl⟩ | ⟨rfl, rfl⟩ <;> rfl
  · intro a i h
    rcases axis_lookup_cases a i h with ⟨rfl, rfl⟩ | ⟨rfl, rfl⟩ | ⟨rfl, rfl⟩ <;> rfl
  · intro i hi
    interval_cases i <;> decide

/-- Witness for C1 at the concrete input revolute/x. -/
theorem revolute_prismatic_one_dof_witness :
    Joint.init "revolute" (some "x") =
      .ok ⟨"revolute", some "x", some (unitVec 0), some (complVec (unitVec 0))⟩ :=
  revolute_prismatic_one_dof.1 "x" 0 rfl

/-- C3: on every successfully constructed joint, wherever both the
kinematic entry and the static entry are resolved 0/1 values, the static
entry is `1 −` the kinematic entry. -/
theorem static_is_complement (jt : String) (ax : Option String)
    (s : JointState) (h : Joint.init jt ax = .ok s) (i : Nat)
    (K T : List (Option Nat)) (kv tv : Nat)
    (hK : s.K = some K) (hT : s.T = some T)
    (hKi : K[i]? = some (some kv)) (hTi : T[i]? = some (some tv))
    (h01 : kv = 0 ∨ kv = 1) :
    tv = 1 - kv := by
  obtain ⟨K2, -, rfl⟩ := updateTorsors_ok_shape _ _ (init_ok jt ax s h)
  have hK2 : some K2 = some K := hK
  injection hK2 with hK2
  subst hK2
  have hT2 : some (K2.map complEntry) = some T := hT
  injection hT2 with hT2
  subst hT2
  rw [List.getElem?_map, hKi] at hTi
  rcases h01 with rfl | rfl <;> simp [complEntry] at hTi <;> omega

/-- Witness for C3 at revolute/z, index 0 (kinematic 0, static 1). -/
theorem static_is_complement_witness : (1 : Nat) = 1 - 0 :=
  static_is_complement "revolute" (some "z")
    ⟨"revolute", some "z",
      some [some 0, some 0, some 1, some 0, some 0, some 0],
      some [some 1, some 1, some 0, some 1, some 1, some 1]⟩
    rfl 0
    [some 0, some 0, some 1, some 0, some 0, some 0]
    [some 1, some 1, some 0, some 1, some 1, some 1]
    0 1 rfl rfl rfl rfl (Or.inl rfl)

/-- Counterexample to C4: constructing a `fixed` joint with the invalid
axis `"w"` does not fail — the axis check only runs for axis-requiring
types, so construction succeeds and the bogus axis is stored. -/
theorem fixed_invalid_axis_accepted :
    Joint.init "fixed" (some "w") =
      .ok ⟨"fixed", some "w",
        some [some 0, some 0, some 0, some 0, some 0, some 0],
        some [some 1, some 1, some 1, some 1, some 1, some 1]⟩ := rfl

/-- C4 (amended): for the axis-requiring joint types (revolute,
prismatic) an axis outside {x, y, z} fails with the invalid-axis error;
for the types requiring no axis (fixed, fixed_point) any provided axis,
valid or not, is ignored and construction succeeds. -/
theorem invalid_axis_only_when_required :
    (∀ jt, (jt = "revolute" ∨ jt = "prismatic") → ∀ a,
      axis_index.lookup a = none →
      Joint.init jt (some a) = .error .invalidAxis) ∧
    (∀ jt, (jt = "fixed" ∨ jt = "fixed_point") → ∀ a,
      ∃ s, Joint.init jt (some a) = .ok s) := by
  constructor
  · intro jt hjt a ha
    rcases hjt with rfl | rfl
    · unfold Joint.init
      rw [updateTorsors_invalid_axis (initState "revolute" (some a))
        ⟨"Pivot", true, "Rotation around a fixed axis"⟩ a rfl rfl rfl ha]
      rfl
    · unfold Joint.init
      rw [updateTorsors_invalid_axis (initState "prismatic" (some a))
        ⟨"Glissière", true, "Translation along a fixed axis"⟩ a rfl rfl rfl ha]
      rfl
  · intro jt hjt a
    rcases hjt with rfl | rfl
    · refine ⟨setTorsors (initState "fixed" (some a)) K0, ?_⟩
      unfold Joint.init
      rw [updateTorsors_no_axis (initState "fixed" (some a))
        ⟨"Encastrement", false, "No relative motion"⟩ rfl rfl]
      rfl
    · refine ⟨setTorsors (initState "fixed_point" (some a)) K0, ?_⟩
      unfold Joint.init
      rw [updateTorsors_no_axis (initState "fixed_point" (some a))
        ⟨"Appui ponctuel", false, "Point contact without motion"⟩ rfl rfl]
      rfl

/-- Witness for the amended C4 at revolute with axis `"w"`. -/
theorem invalid_axis_only_when_required_witness :
    Joint.init "revolute" (some "w") = .error .invalidAxis :=
  invalid_axis_only_when_required.1 "revolute" (Or.inl rfl) "w" rfl

/-- C5: every string whose lowercasing is not a catalog key makes
construction fail with the unknown-joint-type error, and joint-type
matching is case-insensitive: `"REVOLUTE"` and `"revolute"` build the
same joint. -/
theorem unknown_type_and_case_insensitive :
    (∀ jt ax, JOINT_TYPES.lookup (pyLower jt) = none →
      Joint.init jt ax = .error (.unknownJointType (pyLower jt))) ∧
    Joint.init "REVOLUTE" (some "z") = Joint.init "revolute" (some "z") := by
  constructor
  · intro jt ax h
    unfold Joint.init
    rw [updateTorsors_unknown (initState jt ax) h]
    rfl
  · rfl

/-- Witness for C5 at the unknown type `"teleport"`. -/
theorem unknown_type_and_case_insensitive_witness :
    Joint.init "teleport" (some "x") =
      .error (.unknownJointType "teleport") :=
  unknown_type_and_case_insensitive.1 "teleport" (some "x") rfl

/-- C6: every joint type whose catalog entry has `axis_required = true`
fails with the missing-axis error when constructed without an axis. -/
theorem missing_axis_error (jt : String) (info : JointTypeInfo)
    (hinfo : JOINT_TYPES.lookup (pyLower jt) = some info)
    (hreq : info.axis_required = true) :
    Joint.init jt none = .error (.missingAxis (pyLower jt)) := by
  unfold Joint.init
  rw [updateTorsors_missing_axis (initState jt none) info hinfo hreq rfl]
  rfl

/-- Witness for C6 at `revolute` with no axis. -/
theorem missing_axis_error_witness :
    Joint.init "revolute" none = .error (.missingAxis "revolute") :=
  missing_axis_error "revolute" ⟨"Pivot", true, "Rotation around a fixed axis"⟩
    rfl rfl

/-- C7: construction is atomic — every raise in `_update_torsors` happens
while `self.K` and `self.T` still hold their initial `None`, so a failed
construction never exposes a populated torsor, while a successful one
populates both. -/
theorem construction_atomic (jt : String) (ax : Option String) :
    (∀ e s, updateTorsors (initState jt ax) = .error (e, s) →
      s.K = none ∧ s.T = none) ∧
    (∀ s, updateTorsors (initState jt ax) = .ok s →
      s.K ≠ none ∧ s.T ≠ none) := by
  constructor
  · intro e s h
    have hs := updateTorsors_error_state _ _ _ h
    subst hs
    exact ⟨rfl, rfl⟩
  · intro s h
    obtain ⟨K, -, rfl⟩ := updateTorsors_ok_shape _ _ h
    exact ⟨by simp [setTorsors], by simp [setTorsors]⟩

/-- Witness for C7 at a failing construction (revolute, no axis). -/
theorem construction_atomic_witness :
    updateTorsors (initState "revolute" none) =
      .error (.missingAxis "revolute", initState "revolute" none) ∧
    (initState "revolute" none).K = none ∧
    (initState "revolute" none).T = none :=
  ⟨rfl, (construction_atomic "revolute" none).1 (.missingAxis "revolute")
    (initState "revolute" none) rfl⟩

/-- C8: the torsor derivation is a pure function of
`(joint_type, axis)` — two object states agreeing on those two attributes
produce the same derivation outcome (same error kind, or same kinematic
and static torsors), whatever their other state. -/
theorem derivation_deterministic (s1 s2 : JointState)
    (hjt : s1.joint_type = s2.joint_type) (hax : s1.axis = s2.axis) :
    resultTorsors (updateTorsors s1) = resultTorsors (updateTorsors s2) := by
  rcases s1 with ⟨jt1, ax1, K1, T1⟩
  rcases s2 with ⟨jt2, ax2, K2, T2⟩
  obtain rfl : jt1 = jt2 := hjt
  obtain rfl : ax1 = ax2 := hax
  unfold updateTorsors
  dsimp only
  cases hl : JOINT_TYPES.lookup jt1 with
  | none => rfl
  | some info =>
    dsimp only
    by_cases hreq : info.axis_required = true
    · simp only [if_pos hreq]
      cases ax1 with
      | none => rfl
      | some a =>
        dsimp only
        cases hla : axis_index.lookup a with
        | none => rfl
        | some idx =>
          dsimp only
          by_cases hr : jt1 = "revolute"
          · subst hr; rfl
          · by_cases hp : jt1 = "prismatic"
            · subst hp; rfl
            · simp only [if_neg hr, if_neg hp]
              rfl
    · simp only [if_neg hreq]
      rfl

/-- Witness for C8: two states with the same type and axis but different
leftover torsor fields derive the same result. -/
theorem derivation_deterministic_witness :
    resultTorsors (updateTorsors ⟨"fixed", none, some K0, none⟩) =
      resultTorsors (updateTorsors ⟨"fixed", none, none, some K0⟩) :=
  derivation_deterministic ⟨"fixed", none, some K0, none⟩
    ⟨"fixed", none, none, some K0⟩ rfl rfl

/-- C9: on every successfully constructed joint both torsors are fully
resolved — every entry is exactly 0 or 1, the `None` branch of the static
derivation never fires — and the kinematic torsor has at most one entry
equal to 1. -/
theorem torsor_entries_binary (jt : String) (ax : Option String)
    (s : JointState) (h : Joint.init jt ax = .ok s) :
    ∃ K T, s.K = some K ∧ s.T = some T ∧
      (∀ v ∈ K, v = some 0 ∨ v = some 1) ∧
      (∀ v ∈ T, v = some 0 ∨ v = some 1) ∧
      K.count (some 1) ≤ 1 := by
  obtain ⟨K, hshape, rfl⟩ := updateTorsors_ok_shape _ _ (init_ok jt ax s h)
  have hprops : (∀ v ∈ K, v = some 0 ∨ v = some 1) ∧
      (∀ v ∈ K.map complEntry, v = some 0 ∨ v = some 1) ∧
      K.count (some 1) ≤ 1 := by
    rcases hshape with rfl | ⟨i, hi, rfl⟩
    · decide
    · interval_cases i <;> decide
  exact ⟨K, K.map complEntry, rfl, rfl, hprops.1, hprops.2.1, hprops.2.2⟩

/-- Witness for C9 at the concrete joint fixed (no axis). -/
theorem torsor_entries_binary_witness :
    ∃ K T,
      (⟨"fixed", none,
        some [some 0, some 0, some 0, some 0, some 0, some 0],
        some [some 1, some 1, some 1, some 1, some 1, some 1]⟩ : JointState).K
          = some K ∧
      (⟨"fixed", none,
        some [some 0, some 0, some 0, some 0, some 0, some 0],
        some [some 1, some 1, some 1, some 1, some 1, some 1]⟩ : JointState).T
          = some T ∧
      (∀ v ∈ K, v = some 0 ∨ v = some 1) ∧
      (∀ v ∈ T, v = some 0 ∨ v = some 1) ∧
      K.count (some 1) ≤ 1 :=
  torsor_entries_binary "fixed" none _ rfl

/-- C10: axis matching is case-sensitive even though joint-type matching
is case-insensitive — uppercase axes fail with the invalid-axis error
while an uppercase joint type still resolves. -/
theorem axis_matching_case_sensitive :
    Joint.init "revolute" (some "X") = .error .invalidAxis ∧
    Joint.init "revolute" (some "Y") = .error .invalidAxis ∧
    Joint.init "revolute" (some "Z") = .error .invalidAxis ∧
    Joint.init "prismatic" (some "X") = .error .invalidAxis ∧
    Joint.init "prismatic" (some "Y") = .error .invalidAxis ∧
    Joint.init "prismatic" (some "Z") = .error .invalidAxis ∧
    (∃ s, Joint.init "REVOLUTE" (some "x") = .ok s) :=
  ⟨rfl, rfl, rfl, rfl, rfl, rfl, ⟨_, rfl⟩⟩

end MechanicalJoints
